import Mathlib

/-!
Shallow embedding of the ROI backend service (`app.py`): a Flask application
with one POST endpoint that validates a forecast payload, renders it into a
prompt, forwards the prompt to an external chat-completion provider and relays
the result; plus a health route and startup environment validation.

JSON numbers are embedded as exact integers and rationals; the Python
`"{x:.2f}"` float format is embedded as round-half-even fixed-point rendering
of the rational value, which agrees with CPython on every value a binary float
represents exactly.  The request handler is a pure function of the client
state, the parsed request body, the configured deployment name and the
provider; it returns the HTTP response together with the list of outbound
provider calls, so that statements such as "no provider call is made" are
directly expressible.
-/

/-- A JSON scalar value as it appears in a forecast entry: an integer, a
(decimal) float embedded as an exact rational, or a string. -/
inductive JVal where
  | int (n : ℤ)
  | float (q : ℚ)
  | str (s : String)
deriving DecidableEq, Repr

/-- True on numeric JSON values (int or float). -/
def JVal.isNum : JVal → Bool
  | .int _ => true
  | .float _ => true
  | .str _ => false

/-- True on string JSON values. -/
def JVal.isStr : JVal → Bool
  | .str _ => true
  | _ => false

/-- The rational value of a numeric JSON value (0 on strings; only used under
a numericity hypothesis). -/
def JVal.toRat : JVal → ℚ
  | .int n => (n : ℚ)
  | .float q => q
  | .str _ => 0

/-- A forecast entry: a JSON object, embedded as an association list from
field names to values (first match wins, as in a Python dict). -/
abbrev Entry := List (String × JVal)

/-- Python dict lookup `d.get(k)` / `k in d`. -/
def dictGet : Entry → String → Option JVal
  | [], _ => none
  | (k, v) :: rest, key => if k = key then some v else dictGet rest key

/-- The magnitude of a rational, written so that kernel reduction is direct. -/
def absQ (q : ℚ) : ℚ := if q < 0 then -q else q

/-- Round `num * 100 / den` to the nearest natural number, ties to even --
the rounding CPython applies when formatting a float with `.2f`, computed
directly on the numerator and (positive) denominator. -/
def roundHalfEven100 (num den : ℕ) : ℕ :=
  let t := num * 100
  let f := t / den
  let r := t % den
  if 2 * r < den then f
  else if den < 2 * r then f + 1
  else if f % 2 = 0 then f else f + 1

/-- The two-digit zero-padded decimal rendering of `n % 100`. -/
def twoDigits (n : ℕ) : String :=
  String.mk [Nat.digitChar (n / 10 % 10), Nat.digitChar (n % 10)]

/-- Embedding of the Python format `f"{q:.2f}"` on an exact numeric value:
sign, integer part, and exactly two fractional digits, rounding half to
even. -/
def fmt2f (q : ℚ) : String :=
  let m := roundHalfEven100 q.num.natAbs q.den
  (if q.num < 0 then "-" else "") ++ toString (m / 100) ++ "." ++ twoDigits (m % 100)

/-- Fractional decimal digits of a rational in `[0, 1)`, with fuel; terminates
exactly for decimal fractions, which are the only values a JSON float can
denote. -/
def fracDigits : ℕ → ℚ → List Char
  | 0, _ => []
  | fuel + 1, r =>
    if r = 0 then []
    else
      let r10 := r * 10
      let d := Rat.floor r10
      Nat.digitChar d.toNat :: fracDigits fuel (r10 - (d : ℚ))

/-- Embedding of Python `str` on a float: sign, integer part, a dot, and the
decimal expansion of the fractional part (at least one digit, as in `"1.0"`). -/
def pyFloatStr (q : ℚ) : String :=
  let s := if q < 0 then "-" else ""
  let aq := absQ q
  let ip := Rat.floor aq
  let fr := aq - (ip : ℚ)
  s ++ toString ip.toNat ++ "." ++ (if fr = 0 then "0" else String.mk (fracDigits 40 fr))

/-- Embedding of Python `str` on a JSON scalar, as used by the unformatted
interpolation `f"Year {entry[\x27year\x27]}"`. -/
def pyStr : JVal → String
  | .int n => toString n
  | .float q => pyFloatStr q
  | .str s => s

/-- Python `entry[key]`: the value, or a `KeyError` whose message is the
quoted key. -/
def pyGetItem (e : Entry) (k : String) : Except String JVal :=
  match dictGet e k with
  | some v => .ok v
  | none => .error ("\x27" ++ k ++ "\x27")

/-- Applying the `.2f` format specifier to a JSON scalar: numeric values are
rendered, a string raises a `ValueError` as in Python. -/
def pyFmt2f : JVal → Except String String
  | .int n => .ok (fmt2f (n : ℚ))
  | .float q => .ok (fmt2f q)
  | .str _ => .error "Unknown format code \x27f\x27 for object of type \x27str\x27"

/-- The nine required field names, in the order the validation loop checks
them (`required_keys` in `app.py`). -/
def required_keys : List String :=
  ["year", "investment", "amcCost", "revenue", "savings",
   "totalRevenueSavings", "cumulativeTotalCost",
   "netProfitLoss", "cumulativeProfitLoss"]

/-- The eight field names that are interpolated under the `.2f` currency
format (all required fields except `year`, which is interpolated with plain
`str`). -/
def currencyKeys : List String :=
  ["investment", "amcCost", "revenue", "savings",
   "totalRevenueSavings", "cumulativeTotalCost",
   "netProfitLoss", "cumulativeProfitLoss"]

/-- The first required key missing from an entry, in field order. -/
def firstMissing (e : Entry) : Option String :=
  required_keys.find? (fun k => (dictGet e k).isNone)

/-- The validation loop of `generate_ai_observations`: entries outer, keys
inner, returning the first missing key or `none` when all are present. -/
def validateEntries : List Entry → Option String
  | [] => none
  | e :: rest =>
    match firstMissing e with
    | some k => some k
    | none => validateEntries rest

/-- The per-entry f-string of the forecast summary (lines 76-79 of
`app.py`), with the Python exception flow made explicit: a missing key or a
string under a `.2f` format propagates as an error. -/
def renderLine (e : Entry) : Except String String :=
  (pyGetItem e "year").bind fun year =>
  ((pyGetItem e "investment").bind pyFmt2f).bind fun investment =>
  ((pyGetItem e "amcCost").bind pyFmt2f).bind fun amcCost =>
  ((pyGetItem e "revenue").bind pyFmt2f).bind fun revenue =>
  ((pyGetItem e "savings").bind pyFmt2f).bind fun savings =>
  ((pyGetItem e "totalRevenueSavings").bind pyFmt2f).bind fun totalRevenueSavings =>
  ((pyGetItem e "cumulativeTotalCost").bind pyFmt2f).bind fun cumulativeTotalCost =>
  ((pyGetItem e "netProfitLoss").bind pyFmt2f).bind fun netProfitLoss =>
  ((pyGetItem e "cumulativeProfitLoss").bind pyFmt2f).bind fun cumulativeProfitLoss =>
  .ok ("Year " ++ pyStr year ++ ": Investment = $" ++ investment ++
    ", AMC Cost = $" ++ amcCost ++
    ", Revenue = $" ++ revenue ++ ", Cost Savings = $" ++ savings ++
    ", Total Revenue & Savings = $" ++ totalRevenueSavings ++
    ", Cumulative Cost = $" ++ cumulativeTotalCost ++
    ", Net Profit/Loss = $" ++ netProfitLoss ++
    ", Cumulative Profit/Loss = $" ++ cumulativeProfitLoss)

/-- The list comprehension of line 75 of `app.py`: each entry rendered in
input order, the first exception aborting the whole request. -/
def renderLines : List Entry → Except String (List String)
  | [] => .ok []
  | e :: rest =>
    (renderLine e).bind fun line =>
    (renderLines rest).bind fun ls =>
    .ok (line :: ls)

/-- The forecast summary: the rendered lines joined with a single newline. -/
def renderSummary (data : List Entry) : Except String String :=
  (renderLines data).map (String.intercalate "\n")

/-- The fixed text of the prompt before the interpolated forecast summary
(lines 84-89 of `app.py`, adjacent Python literals concatenated). -/
def promptHead : String :=
  "You are a financial analyst with expertise in return on investment (ROI) forecasting. " ++
  "Analyze the following financial forecast and provide **concise, data-driven** insights. " ++
  "Each point must be **a maximum of four lines**, covering all relevant data from the forecast. " ++
  "Insights should include **both quarterly and yearly trends**, backed by **specific numerical values**. " ++
  "Ensure the response follows the structured format below.\n\n" ++
  "#### **Financial Data:**\n"

/-- The fixed text of the prompt after the interpolated forecast summary
(lines 90-106 of `app.py`). -/
def promptTail : String :=
  "\n\n" ++
  "#### **Your Analysis Should Cover:**\n" ++
  "Provide exactly **4 key insights** and **1 two-line conclusion** (always include ROI Trends and Break-even Point) in the following structured format:\n\n" ++
  "---\n" ++
  "## 📊 **Key Insights**\n\n" ++
  "- **Quarterly ROI growth** starts at **2.5% in Q1**, rising to **7% in Q4**, leading to an annual ROI of **28%** in Year 1. " ++
  "By Year 3, **quarterly ROI stabilizes at 9%**, pushing the annual ROI to **120%**.\n\n" ++
  "- **Break-even is reached in Q2 of Year 2**, when revenue crosses **$450,000**, surpassing cumulative costs of **$380,000**. " ++
  "By Year 3, net profit reaches **$150,000 per quarter**, ensuring long-term stability.\n\n" ++
  "- **Compared to industry benchmarks**, projected ROI exceeds the **95% 3-year industry average** by **15%**, " ++
  "with **quarterly cost efficiency improving by 5% per quarter**, strengthening profit margins.\n\n" ++
  "- **High Year 1 operational costs** of **$100,000 per quarter** exceed projections by **20%**, but automation reduces " ++
  "quarterly expenses by **$10,000 from Q3 onward**, leading to **total savings of $200,000 over 5 years**.\n\n" ++
  "---\n" ++
  "## 📌 **Conclusion**\n" ++
  "💡 **ROI reaches 120% in 3 years, with quarterly gains stabilizing at 9%. " ++
  "Break-even in Q2 of Year 2 ensures sustainable profits, while automation-driven savings boost cost efficiency long-term.**"

/-- The full prompt: the fixed template with the forecast summary at its
single interpolation point. -/
def mkPrompt (summary : String) : String :=
  promptHead ++ summary ++ promptTail

/-- Leading whitespace characters dropped from a character list. -/
def dropLeadingWs : List Char → List Char
  | [] => []
  | c :: cs => if c.isWhitespace then dropLeadingWs cs else c :: cs

/-- Embedding of Python `str.strip()`: surrounding whitespace removed from
both ends. -/
def pyStrip (s : String) : String :=
  String.mk (dropLeadingWs (dropLeadingWs s.data.reverse).reverse)

/-- One role-tagged message of the outbound conversation. -/
structure ChatMessage where
  role : String
  content : String
deriving DecidableEq, Repr

/-- One outbound call to the chat-completion API: the model (deployment)
identifier and the message list. -/
structure ProviderCall where
  model : String
  messages : List ChatMessage
deriving DecidableEq, Repr

/-- A successful provider response: the generated text of each choice, in
order. -/
structure ProviderResponse where
  choices : List String
deriving DecidableEq, Repr

/-- An HTTP response: status code and JSON object body (string fields). -/
structure HttpResponse where
  status : ℕ
  body : List (String × String)
deriving DecidableEq, Repr

/-- The handler of `POST /generate-ai-observations` (`app.py` lines 52-129)
as a pure function of the client state, the parsed `forecastData` field of
the request body (`none` when absent), the configured deployment name, and
the provider.  The second component of the result is the list of provider
calls the request made. -/
def generate_ai_observations (clientInit : Bool) (forecastData : Option (List Entry))
    (deployment : String) (provider : ProviderCall → Except String ProviderResponse) :
    HttpResponse × List ProviderCall :=
  if clientInit = false then
    (⟨500, [("error", "OpenAI client not initialized")]⟩, [])
  else
    let data := forecastData.getD []
    if data.isEmpty then
      (⟨400, [("error", "No forecast data provided")]⟩, [])
    else
      match validateEntries data with
      | some k => (⟨400, [("error", "Missing required key: " ++ k)]⟩, [])
      | none =>
        match renderSummary data with
        | .error e => (⟨500, [("error", "Internal Server Error: " ++ e)]⟩, [])
        | .ok summary =>
          let call : ProviderCall :=
            ⟨deployment,
             [⟨"system", "You are a financial analyst."⟩,
              ⟨"user", mkPrompt summary⟩]⟩
          match provider call with
          | .error msg => (⟨500, [("error", "OpenAI API Error: " ++ msg)]⟩, [call])
          | .ok resp =>
            match resp.choices with
            | [] => (⟨500, [("error", "OpenAI API Error: list index out of range")]⟩, [call])
            | c :: _ => (⟨200, [("observation", pyStrip c)]⟩, [call])

/-- The handler of `GET /health` (`app.py` lines 132-134): a constant
response, reading neither the request nor the client state. -/
def health_check : HttpResponse :=
  ⟨200, [("status", "healthy"), ("message", "ROI Calculator Backend is running")]⟩

/-- The four required environment variable names (`REQUIRED_ENVS`). -/
def REQUIRED_ENVS : List String :=
  ["AZURE_OPENAI_API_KEY", "AZURE_OPENAI_ENDPOINT",
   "AZURE_DEPLOYMENT_NAME", "AZURE_API_VERSION"]

/-- Python truthiness of `os.getenv(e)`: false when the variable is unset or
set to the empty string. -/
def envTruthy : Option String → Bool
  | none => false
  | some s => !(s = "")

/-- The startup scan (`app.py` line 25): the required variables that are
unset or empty, in declaration order. -/
def missing_envs (getenv : String → Option String) : List String :=
  REQUIRED_ENVS.filter (fun e => !envTruthy (getenv e))

/-- The startup check (`app.py` lines 24-27): raise a `ValueError` naming
the missing variables when any required variable is unset or empty. -/
def startupCheck (getenv : String → Option String) : Except String Unit :=
  if (missing_envs getenv).isEmpty then .ok ()
  else .error ("Missing required environment variables: " ++
    String.intercalate ", " (missing_envs getenv))

/-- Spec-side rendering of one entry, written from the template quoted in the
specification, with `\x7bfield:.2f\x7d` read as exact two-decimal rendering of
the numeric field. -/
def lineTemplate (e : Entry) : String :=
  "Year " ++ pyStr ((dictGet e "year").getD (.str "")) ++
  ": Investment = $" ++ fmt2f ((dictGet e "investment").getD (.str "")).toRat ++
  ", AMC Cost = $" ++ fmt2f ((dictGet e "amcCost").getD (.str "")).toRat ++
  ", Revenue = $" ++ fmt2f ((dictGet e "revenue").getD (.str "")).toRat ++
  ", Cost Savings = $" ++ fmt2f ((dictGet e "savings").getD (.str "")).toRat ++
  ", Total Revenue & Savings = $" ++ fmt2f ((dictGet e "totalRevenueSavings").getD (.str "")).toRat ++
  ", Cumulative Cost = $" ++ fmt2f ((dictGet e "cumulativeTotalCost").getD (.str "")).toRat ++
  ", Net Profit/Loss = $" ++ fmt2f ((dictGet e "netProfitLoss").getD (.str "")).toRat ++
  ", Cumulative Profit/Loss = $" ++ fmt2f ((dictGet e "cumulativeProfitLoss").getD (.str "")).toRat

/-- Spec-side first validation violation: the first entry (in input order)
missing some required key, and within it the first missing key in field
order. -/
def firstViolation (data : List Entry) : Option String :=
  (data.find? (fun e => required_keys.any (fun k => (dictGet e k).isNone))).bind
    (fun e => required_keys.find? (fun k => (dictGet e k).isNone))

/-- The provider call a valid request produces: the configured deployment,
a fixed system message, and the assembled prompt as the user message. -/
def expectedCall (data : List Entry) (deployment : String) : ProviderCall :=
  ⟨deployment,
   [⟨"system", "You are a financial analyst."⟩,
    ⟨"user", mkPrompt (String.intercalate "\n" (data.map lineTemplate))⟩]⟩

/-- The worked example entry of the specification: year 1, investment 1000,
AMC cost 200, revenue 1500, savings 100, totals 1600 / 1200 / 400 / 400. -/
def exEntry : Entry :=
  [("year", .int 1), ("investment", .int 1000), ("amcCost", .int 200),
   ("revenue", .int 1500), ("savings", .int 100),
   ("totalRevenueSavings", .int 1600), ("cumulativeTotalCost", .int 1200),
   ("netProfitLoss", .int 400), ("cumulativeProfitLoss", .int 400)]

/-- Entry identical to the worked example except that `year` holds a string;
all currency fields are numeric. -/
def strYearEntry : Entry :=
  [("year", .str "Y1"), ("investment", .int 1000), ("amcCost", .int 200),
   ("revenue", .int 1500), ("savings", .int 100),
   ("totalRevenueSavings", .int 1600), ("cumulativeTotalCost", .int 1200),
   ("netProfitLoss", .int 400), ("cumulativeProfitLoss", .int 400)]

/-- Entry identical to the worked example except that `investment` holds a
string. -/
def strInvEntry : Entry :=
  [("year", .int 1), ("investment", .str "1000"), ("amcCost", .int 200),
   ("revenue", .int 1500), ("savings", .int 100),
   ("totalRevenueSavings", .int 1600), ("cumulativeTotalCost", .int 1200),
   ("netProfitLoss", .int 400), ("cumulativeProfitLoss", .int 400)]

lemma except_bind_ok {ε α β : Type} {x : Except ε α} {f : α → Except ε β} {b : β}
    (h : x.bind f = .ok b) : ∃ a, x = .ok a ∧ f a = .ok b := by
  cases x with
  | error e => simp [Except.bind] at h
  | ok a => exact ⟨a, rfl, by simpa [Except.bind] using h⟩

lemma digitChar_isDigit {n : ℕ} (h : n < 10) : (Nat.digitChar n).isDigit = true := by
  interval_cases n <;> decide

lemma fmt2f_two_decimals (q : ℚ) :
    ∃ p a b, fmt2f q = p ++ "." ++ String.mk [a, b] ∧
      a.isDigit = true ∧ b.isDigit = true := by
  refine ⟨(if q.num < 0 then "-" else "") ++ toString (roundHalfEven100 q.num.natAbs q.den / 100),
    Nat.digitChar (roundHalfEven100 q.num.natAbs q.den % 100 / 10 % 10),
    Nat.digitChar (roundHalfEven100 q.num.natAbs q.den % 100 % 10), ?_, ?_, ?_⟩
  · simp only [fmt2f, twoDigits, String.append_assoc]
  · exact digitChar_isDigit (by omega)
  · exact digitChar_isDigit (by omega)

lemma pyFmt2f_ok_of_isNum {v : JVal} (h : v.isNum = true) :
    pyFmt2f v = .ok (fmt2f v.toRat) := by
  cases v <;> simp_all [pyFmt2f, JVal.isNum, JVal.toRat]

lemma renderLine_ok_of_numeric (e : Entry)
    (h : ∀ k ∈ required_keys, ∃ v, dictGet e k = some v ∧ v.isNum = true) :
    renderLine e = .ok (lineTemplate e) := by
  obtain ⟨v0, h0, h0n⟩ := h "year" (by decide)
  obtain ⟨v1, h1, h1n⟩ := h "investment" (by decide)
  obtain ⟨v2, h2, h2n⟩ := h "amcCost" (by decide)
  obtain ⟨v3, h3, h3n⟩ := h "revenue" (by decide)
  obtain ⟨v4, h4, h4n⟩ := h "savings" (by decide)
  obtain ⟨v5, h5, h5n⟩ := h "totalRevenueSavings" (by decide)
  obtain ⟨v6, h6, h6n⟩ := h "cumulativeTotalCost" (by decide)
  obtain ⟨v7, h7, h7n⟩ := h "netProfitLoss" (by decide)
  obtain ⟨v8, h8, h8n⟩ := h "cumulativeProfitLoss" (by decide)
  rw [renderLine, lineTemplate]
  simp [pyGetItem, h0, h1, h2, h3, h4, h5, h6, h7, h8, Except.bind,
    pyFmt2f_ok_of_isNum h1n, pyFmt2f_ok_of_isNum h2n, pyFmt2f_ok_of_isNum h3n,
    pyFmt2f_ok_of_isNum h4n, pyFmt2f_ok_of_isNum h5n, pyFmt2f_ok_of_isNum h6n,
    pyFmt2f_ok_of_isNum h7n, pyFmt2f_ok_of_isNum h8n]

lemma renderLines_ok_of_numeric (data : List Entry)
    (h : ∀ e ∈ data, ∀ k ∈ required_keys, ∃ v, dictGet e k = some v ∧ v.isNum = true) :
    renderLines data = .ok (data.map lineTemplate) := by
  induction data with
  | nil => rfl
  | cons e rest ih =>
    have he : renderLine e = .ok (lineTemplate e) :=
      renderLine_ok_of_numeric e (h e (by simp))
    have hr : renderLines rest = .ok (rest.map lineTemplate) :=
      ih (fun e' he' => h e' (by simp [he']))
    simp [renderLines, he, hr, Except.bind]

lemma validateEntries_eq_none (data : List Entry)
    (h : ∀ e ∈ data, ∀ k ∈ required_keys, (dictGet e k).isSome = true) :
    validateEntries data = none := by
  induction data with
  | nil => rfl
  | cons e rest ih =>
    have hfm : firstMissing e = none := by
      rw [firstMissing, List.find?_eq_none]
      intro k hk
      have hs := h e (by simp) k hk
      cases hc : dictGet e k with
      | none => rw [hc] at hs; simp at hs
      | some v => simp [hc]
    rw [validateEntries, hfm]
    exact ih (fun e' he' => h e' (by simp [he']))

lemma validateEntries_eq_firstViolation (data : List Entry) :
    validateEntries data = firstViolation data := by
  induction data with
  | nil => rfl
  | cons e rest ih =>
    by_cases h : required_keys.any (fun k => (dictGet e k).isNone) = true
    · have hfm : (firstMissing e).isSome := by
        rw [firstMissing, List.find?_isSome]
        exact List.any_eq_true.mp h
      obtain ⟨k, hk⟩ := Option.isSome_iff_exists.mp hfm
      rw [validateEntries, hk, firstViolation, List.find?_cons_of_pos rest h]
      simpa [firstMissing] using hk.symm
    · have hfm : firstMissing e = none := by
        rw [firstMissing, List.find?_eq_none]
        intro k hk hkn
        exact h (List.any_eq_true.mpr ⟨k, hk, hkn⟩)
      rw [validateEntries, hfm, firstViolation, List.find?_cons_of_neg rest h]
      exact ih

lemma pyGetItem_some {e : Entry} {k : String} {v : JVal}
    (h : dictGet e k = some v) : pyGetItem e k = .ok v := by
  simp [pyGetItem, h]

lemma renderLine_ok_no_str_currency (e : Entry) (s : String)
    (hok : renderLine e = .ok s) :
    ∀ k ∈ currencyKeys, ∀ t, dictGet e k ≠ some (.str t) := by
  rw [renderLine] at hok
  obtain ⟨v0, h0, hok⟩ := except_bind_ok hok
  obtain ⟨s1, hb1, hok⟩ := except_bind_ok hok
  obtain ⟨v1, h1, hf1⟩ := except_bind_ok hb1
  obtain ⟨s2, hb2, hok⟩ := except_bind_ok hok
  obtain ⟨v2, h2, hf2⟩ := except_bind_ok hb2
  obtain ⟨s3, hb3, hok⟩ := except_bind_ok hok
  obtain ⟨v3, h3, hf3⟩ := except_bind_ok hb3
  obtain ⟨s4, hb4, hok⟩ := except_bind_ok hok
  obtain ⟨v4, h4, hf4⟩ := except_bind_ok hb4
  obtain ⟨s5, hb5, hok⟩ := except_bind_ok hok
  obtain ⟨v5, h5, hf5⟩ := except_bind_ok hb5
  obtain ⟨s6, hb6, hok⟩ := except_bind_ok hok
  obtain ⟨v6, h6, hf6⟩ := except_bind_ok hb6
  obtain ⟨s7, hb7, hok⟩ := except_bind_ok hok
  obtain ⟨v7, h7, hf7⟩ := except_bind_ok hb7
  obtain ⟨s8, hb8, hok⟩ := except_bind_ok hok
  obtain ⟨v8, h8, hf8⟩ := except_bind_ok hb8
  clear hok hb1 hb2 hb3 hb4 hb5 hb6 hb7 hb8
  intro k hk t hcon
  fin_cases hk
  · rw [pyGetItem_some hcon] at h1
    injection h1 with hv
    subst hv
    simp [pyFmt2f] at hf1
  · rw [pyGetItem_some hcon] at h2
    injection h2 with hv
    subst hv
    simp [pyFmt2f] at hf2
  · rw [pyGetItem_some hcon] at h3
    injection h3 with hv
    subst hv
    simp [pyFmt2f] at hf3
  · rw [pyGetItem_some hcon] at h4
    injection h4 with hv
    subst hv
    simp [pyFmt2f] at hf4
  · rw [pyGetItem_some hcon] at h5
    injection h5 with hv
    subst hv
    simp [pyFmt2f] at hf5
  · rw [pyGetItem_some hcon] at h6
    injection h6 with hv
    subst hv
    simp [pyFmt2f] at hf6
  · rw [pyGetItem_some hcon] at h7
    injection h7 with hv
    subst hv
    simp [pyFmt2f] at hf7
  · rw [pyGetItem_some hcon] at h8
    injection h8 with hv
    subst hv
    simp [pyFmt2f] at hf8

lemma renderLines_error_of_bad (data : List Entry)
    (hbad : ∃ e ∈ data, ∃ k ∈ currencyKeys, ∃ t, dictGet e k = some (.str t)) :
    ∃ m, renderLines data = .error m := by
  induction data with
  | nil => simp at hbad
  | cons e rest ih =>
    cases hre : renderLine e with
    | error m => exact ⟨m, by simp [renderLines, hre, Except.bind]⟩
    | ok s =>
      rcases hbad with ⟨e', he', k, hk, t, ht⟩
      rcases List.mem_cons.mp he' with rfl | hmem
      · exact absurd ht (renderLine_ok_no_str_currency e' s hre k hk t)
      · obtain ⟨m, hm⟩ := ih ⟨e', hmem, k, hk, t, ht⟩
        exact ⟨m, by simp [renderLines, hre, hm, Except.bind]⟩

/-- C1: for a non-empty forecast sequence whose entries all carry the nine
required fields with numeric values, the rendered forecast summary is one
line per entry joined by a single newline, in input order (line `i` renders
entry `i`), each line following the fixed template with every currency field
formatted with exactly two decimal digits, and `1000` rendering as
`1000.00`. -/
theorem C1_forecast_summary_format (data : List Entry)
    (_hne : data ≠ [])
    (hnum : ∀ e ∈ data, ∀ k ∈ required_keys, ∃ v, dictGet e k = some v ∧ v.isNum = true) :
    renderSummary data = .ok (String.intercalate "\n" (data.map lineTemplate)) ∧
    (data.map lineTemplate).length = data.length ∧
    (∀ i : ℕ, ∀ hi : i < data.length,
      (data.map lineTemplate).get ⟨i, by simpa using hi⟩ = lineTemplate (data.get ⟨i, hi⟩)) ∧
    (∀ q : ℚ, ∃ p a b, fmt2f q = p ++ "." ++ String.mk [a, b] ∧
      a.isDigit = true ∧ b.isDigit = true) ∧
    fmt2f 1000 = "1000.00" := by
  have hr := renderLines_ok_of_numeric data hnum
  refine ⟨by simp [renderSummary, hr, Except.map], by simp, ?_, fmt2f_two_decimals, by decide⟩
  intro i hi
  simp [List.getElem_map]

/-- Witness for C1 at the worked example entry of the specification. -/
theorem C1_witness :
    ([exEntry] ≠ []) ∧
    (∀ e ∈ [exEntry], ∀ k ∈ required_keys, ∃ v, dictGet e k = some v ∧ v.isNum = true) ∧
    renderSummary [exEntry] = .ok (String.intercalate "\n" ([exEntry].map lineTemplate)) := by
  have h : ∀ e ∈ [exEntry], ∀ k ∈ required_keys, ∃ v, dictGet e k = some v ∧ v.isNum = true := by
    intro e he k hk
    fin_cases he
    simp only [required_keys] at hk
    fin_cases hk <;> exact ⟨_, rfl, rfl⟩
  exact ⟨by simp, h, (C1_forecast_summary_format [exEntry] (by simp) h).1⟩

lemma exEntry_numeric :
    ∀ e ∈ [exEntry], ∀ k ∈ required_keys, ∃ v, dictGet e k = some v ∧ v.isNum = true := by
  intro e he k hk
  fin_cases he
  simp only [required_keys] at hk
  fin_cases hk <;> exact ⟨_, rfl, rfl⟩

lemma generate_valid_eq (a : Entry) (l : List Entry) (dep : String)
    (provider : ProviderCall → Except String ProviderResponse)
    (hval : validateEntries (a :: l) = none)
    (hsum : renderLines (a :: l) = .ok ((a :: l).map lineTemplate)) :
    generate_ai_observations true (some (a :: l)) dep provider =
      (match provider (expectedCall (a :: l) dep) with
      | .error msg => (⟨500, [("error", "OpenAI API Error: " ++ msg)]⟩,
          [expectedCall (a :: l) dep])
      | .ok resp =>
        match resp.choices with
        | [] => (⟨500, [("error", "OpenAI API Error: list index out of range")]⟩,
            [expectedCall (a :: l) dep])
        | c :: _ => (⟨200, [("observation", pyStrip c)]⟩, [expectedCall (a :: l) dep])) := by
  simp [generate_ai_observations, hval, renderSummary, hsum, Except.map, expectedCall, mkPrompt]

/-- C2: when some entry of the sequence lacks some required field, the
endpoint answers 400 with an error naming the missing field, chosen
fail-fast as the first violation in entry order then field order
(`firstViolation`, shown equal to the validation loop), and no provider
call is made. -/
theorem C2_missing_key_400 (data : List Entry) (dep : String)
    (provider : ProviderCall → Except String ProviderResponse)
    (hbad : ∃ e ∈ data, ∃ k ∈ required_keys, dictGet e k = none) :
    ∃ k, k ∈ required_keys ∧ firstViolation data = some k ∧
      generate_ai_observations true (some data) dep provider =
        (⟨400, [("error", "Missing required key: " ++ k)]⟩, []) := by
  obtain ⟨e, he, k0, hk0, hk0n⟩ := hbad
  have hne : data ≠ [] := List.ne_nil_of_mem he
  have hsome : (validateEntries data).isSome := by
    rw [validateEntries_eq_firstViolation, firstViolation]
    have h1 : (data.find? (fun e => required_keys.any fun k => (dictGet e k).isNone)).isSome := by
      rw [List.find?_isSome]
      exact ⟨e, he, List.any_eq_true.mpr ⟨k0, hk0, by simp [hk0n]⟩⟩
    obtain ⟨e', he'⟩ := Option.isSome_iff_exists.mp h1
    have hp := List.find?_some he'
    rw [he', Option.some_bind, List.find?_isSome]
    exact List.any_eq_true.mp hp
  obtain ⟨k, hk⟩ := Option.isSome_iff_exists.mp hsome
  have hkv := hk
  rw [validateEntries_eq_firstViolation, firstViolation] at hkv
  obtain ⟨e', he', hk'⟩ := Option.bind_eq_some.mp hkv
  refine ⟨k, List.mem_of_find?_eq_some hk', by rw [← validateEntries_eq_firstViolation]; exact hk, ?_⟩
  obtain ⟨a, l, rfl⟩ : ∃ a l, data = a :: l := by
    cases data with
    | nil => exact absurd rfl hne
    | cons a l => exact ⟨a, l, rfl⟩
  simp [generate_ai_observations, hk]

/-- Witness for C2: a single entry carrying only `year` is rejected with 400
naming `investment`, the first missing key. -/
theorem C2_witness :
    (∃ e ∈ [[(("year" : String), JVal.int 1)]], ∃ k ∈ required_keys, dictGet e k = none) ∧
    (∃ k, k ∈ required_keys ∧ firstViolation [[(("year" : String), JVal.int 1)]] = some k ∧
      generate_ai_observations true (some [[(("year" : String), JVal.int 1)]]) "dep"
          (fun _ => .error "unused") =
        (⟨400, [("error", "Missing required key: " ++ k)]⟩, [])) := by
  have h : ∃ e ∈ [[(("year" : String), JVal.int 1)]], ∃ k ∈ required_keys, dictGet e k = none :=
    ⟨[(("year" : String), JVal.int 1)], by simp, "investment", by decide, by decide⟩
  exact ⟨h, C2_missing_key_400 _ "dep" _ h⟩

/-- C3: a request with no `forecastData` field, or with an empty sequence,
is answered 400 with the no-data error, and no provider call is made. -/
theorem C3_no_data_400 (fd : Option (List Entry)) (dep : String)
    (provider : ProviderCall → Except String ProviderResponse)
    (h : fd = none ∨ fd = some []) :
    generate_ai_observations true fd dep provider =
      (⟨400, [("error", "No forecast data provided")]⟩, []) := by
  rcases h with rfl | rfl <;> rfl

/-- Witness for C3 at an absent `forecastData` field. -/
theorem C3_witness :
    ((none : Option (List Entry)) = none ∨ (none : Option (List Entry)) = some []) ∧
    generate_ai_observations true none "dep" (fun _ => .error "unused") =
      (⟨400, [("error", "No forecast data provided")]⟩, []) :=
  ⟨Or.inl rfl, C3_no_data_400 none "dep" _ (Or.inl rfl)⟩

/-- C4 (amended): for a valid request whose provider call succeeds with a
first completion `c`, the endpoint answers 200 and the `observation` field is
exactly `c` with surrounding whitespace stripped, otherwise unmodified; it is
non-empty exactly when the stripped completion text is non-empty, since the
code does not enforce non-emptiness. -/
theorem C4_success_observation (data : List Entry) (dep : String)
    (provider : ProviderCall → Except String ProviderResponse) (c : String) (cs : List String)
    (hne : data ≠ [])
    (hnum : ∀ e ∈ data, ∀ k ∈ required_keys, ∃ v, dictGet e k = some v ∧ v.isNum = true)
    (hprov : provider (expectedCall data dep) = .ok ⟨c :: cs⟩) :
    generate_ai_observations true (some data) dep provider =
      (⟨200, [("observation", pyStrip c)]⟩, [expectedCall data dep]) := by
  have hval : validateEntries data = none :=
    validateEntries_eq_none data (fun e he k hk => by
      obtain ⟨v, hv, _⟩ := hnum e he k hk
      simp [hv])
  have hsum := renderLines_ok_of_numeric data hnum
  obtain ⟨a, l, rfl⟩ : ∃ a l, data = a :: l := by
    cases data with
    | nil => exact absurd rfl hne
    | cons a l => exact ⟨a, l, rfl⟩
  rw [generate_valid_eq a l dep provider hval hsum, hprov]

/-- Witness for C4 at the worked example entry and a provider returning a
single completion with surrounding whitespace. -/
theorem C4_witness :
    ([exEntry] ≠ []) ∧
    (∀ e ∈ [exEntry], ∀ k ∈ required_keys, ∃ v, dictGet e k = some v ∧ v.isNum = true) ∧
    ((fun _ : ProviderCall => (.ok ⟨[" ok "]⟩ : Except String ProviderResponse))
        (expectedCall [exEntry] "dep") = .ok ⟨" ok " :: []⟩) ∧
    generate_ai_observations true (some [exEntry]) "dep" (fun _ => .ok ⟨[" ok "]⟩) =
      (⟨200, [("observation", pyStrip " ok ")]⟩, [expectedCall [exEntry] "dep"]) :=
  ⟨by simp, exEntry_numeric, rfl,
    C4_success_observation [exEntry] "dep" _ " ok " [] (by simp) exEntry_numeric rfl⟩

/-- C4 counterexample: a fully valid request whose provider call succeeds
with an empty first completion is answered 200 with an empty `observation`
string, refuting the non-emptiness part of the claim. -/
theorem C4_counterexample :
    (generate_ai_observations true (some [exEntry]) "dep" (fun _ => .ok ⟨[""]⟩)).1 =
      ⟨200, [("observation", "")]⟩ := by
  rfl

/-- C5: when the provider call of a valid request raises an error, the
endpoint answers 500 forwarding the provider message verbatim after the
fixed `OpenAI API Error: ` tag, makes exactly one provider call (no retry),
and still returns a normal response. -/
theorem C5_provider_error_500 (data : List Entry) (dep : String)
    (provider : ProviderCall → Except String ProviderResponse) (msg : String)
    (hne : data ≠ [])
    (hnum : ∀ e ∈ data, ∀ k ∈ required_keys, ∃ v, dictGet e k = some v ∧ v.isNum = true)
    (hprov : provider (expectedCall data dep) = .error msg) :
    generate_ai_observations true (some data) dep provider =
      (⟨500, [("error", "OpenAI API Error: " ++ msg)]⟩, [expectedCall data dep]) := by
  have hval : validateEntries data = none :=
    validateEntries_eq_none data (fun e he k hk => by
      obtain ⟨v, hv, _⟩ := hnum e he k hk
      simp [hv])
  have hsum := renderLines_ok_of_numeric data hnum
  obtain ⟨a, l, rfl⟩ : ∃ a l, data = a :: l := by
    cases data with
    | nil => exact absurd rfl hne
    | cons a l => exact ⟨a, l, rfl⟩
  rw [generate_valid_eq a l dep provider hval hsum, hprov]

/-- Witness for C5 at the worked example entry and a failing provider. -/
theorem C5_witness :
    ([exEntry] ≠ []) ∧
    (∀ e ∈ [exEntry], ∀ k ∈ required_keys, ∃ v, dictGet e k = some v ∧ v.isNum = true) ∧
    ((fun _ : ProviderCall => (.error "rate limit exceeded" : Except String ProviderResponse))
        (expectedCall [exEntry] "dep") = .error "rate limit exceeded") ∧
    generate_ai_observations true (some [exEntry]) "dep" (fun _ => .error "rate limit exceeded") =
      (⟨500, [("error", "OpenAI API Error: " ++ "rate limit exceeded")]⟩,
        [expectedCall [exEntry] "dep"]) :=
  ⟨by simp, exEntry_numeric, rfl,
    C5_provider_error_500 [exEntry] "dep" _ "rate limit exceeded" (by simp) exEntry_numeric rfl⟩

/-- C6: with the generation client uninitialized, every request is answered
with the identical 500 client-unavailable error, whatever the request body,
deployment or provider, and before any parsing, validation or provider
call. -/
theorem C6_client_uninitialized_500 (fd : Option (List Entry)) (dep : String)
    (provider : ProviderCall → Except String ProviderResponse) :
    generate_ai_observations false fd dep provider =
      (⟨500, [("error", "OpenAI client not initialized")]⟩, []) := rfl

/-- C7: for every valid request, the single provider call carries exactly two
messages -- the fixed system message framing the model as a financial
analyst, then the fixed template with the rendered summary at its single
interpolation point -- the model identifier is the configured deployment,
and the template directs the model to produce exactly four key insights and
one two-line conclusion always including ROI Trends and Break-even Point. -/
theorem C7_two_message_prompt (data : List Entry) (dep : String)
    (provider : ProviderCall → Except String ProviderResponse)
    (hne : data ≠ [])
    (hnum : ∀ e ∈ data, ∀ k ∈ required_keys, ∃ v, dictGet e k = some v ∧ v.isNum = true) :
    (generate_ai_observations true (some data) dep provider).2 = [expectedCall data dep] ∧
    (expectedCall data dep).model = dep ∧
    (expectedCall data dep).messages =
      [⟨"system", "You are a financial analyst."⟩,
       ⟨"user", promptHead ++ String.intercalate "\n" (data.map lineTemplate) ++ promptTail⟩] ∧
    (∃ a b, promptTail = a ++
      "Provide exactly **4 key insights** and **1 two-line conclusion** (always include ROI Trends and Break-even Point)" ++ b) := by
  have hval : validateEntries data = none :=
    validateEntries_eq_none data (fun e he k hk => by
      obtain ⟨v, hv, _⟩ := hnum e he k hk
      simp [hv])
  have hsum := renderLines_ok_of_numeric data hnum
  obtain ⟨a, l, rfl⟩ : ∃ a l, data = a :: l := by
    cases data with
    | nil => exact absurd rfl hne
    | cons a l => exact ⟨a, l, rfl⟩
  refine ⟨?_, rfl, rfl, ?_⟩
  · rw [generate_valid_eq a l dep provider hval hsum]
    cases hp : provider (expectedCall (a :: l) dep) with
    | error msg => rfl
    | ok resp =>
      rcases resp with ⟨choices⟩
      cases choices <;> rfl
  · refine ⟨"\n\n" ++ "#### **Your Analysis Should Cover:**\n",
      " in the following structured format:\n\n" ++
      "---\n" ++
      "## 📊 **Key Insights**\n\n" ++
      "- **Quarterly ROI growth** starts at **2.5% in Q1**, rising to **7% in Q4**, leading to an annual ROI of **28%** in Year 1. " ++
      "By Year 3, **quarterly ROI stabilizes at 9%**, pushing the annual ROI to **120%**.\n\n" ++
      "- **Break-even is reached in Q2 of Year 2**, when revenue crosses **$450,000**, surpassing cumulative costs of **$380,000**. " ++
      "By Year 3, net profit reaches **$150,000 per quarter**, ensuring long-term stability.\n\n" ++
      "- **Compared to industry benchmarks**, projected ROI exceeds the **95% 3-year industry average** by **15%**, " ++
      "with **quarterly cost efficiency improving by 5% per quarter**, strengthening profit margins.\n\n" ++
      "- **High Year 1 operational costs** of **$100,000 per quarter** exceed projections by **20%**, but automation reduces " ++
      "quarterly expenses by **$10,000 from Q3 onward**, leading to **total savings of $200,000 over 5 years**.\n\n" ++
      "---\n" ++
      "## 📌 **Conclusion**\n" ++
      "💡 **ROI reaches 120% in 3 years, with quarterly gains stabilizing at 9%. " ++
      "Break-even in Q2 of Year 2 ensures sustainable profits, while automation-driven savings boost cost efficiency long-term.**", ?_⟩
    rw [promptTail]
    rw [show ("Provide exactly **4 key insights** and **1 two-line conclusion** (always include ROI Trends and Break-even Point) in the following structured format:\n\n" : String) =
      "Provide exactly **4 key insights** and **1 two-line conclusion** (always include ROI Trends and Break-even Point)" ++
        " in the following structured format:\n\n" from by
      set_option maxRecDepth 8000 in decide]
    simp [String.append_assoc]

/-- Witness for C7 at the worked example entry. -/
theorem C7_witness :
    ([exEntry] ≠ []) ∧
    (∀ e ∈ [exEntry], ∀ k ∈ required_keys, ∃ v, dictGet e k = some v ∧ v.isNum = true) ∧
    ((generate_ai_observations true (some [exEntry]) "dep" (fun _ => .error "unused")).2 =
        [expectedCall [exEntry] "dep"] ∧
      (expectedCall [exEntry] "dep").model = "dep" ∧
      (expectedCall [exEntry] "dep").messages =
        [⟨"system", "You are a financial analyst."⟩,
         ⟨"user", promptHead ++ String.intercalate "\n" ([exEntry].map lineTemplate) ++ promptTail⟩] ∧
      (∃ a b, promptTail = a ++
        "Provide exactly **4 key insights** and **1 two-line conclusion** (always include ROI Trends and Break-even Point)" ++ b)) :=
  ⟨by simp, exEntry_numeric,
    C7_two_message_prompt [exEntry] "dep" _ (by simp) exEntry_numeric⟩

/-- C8: the health endpoint is the constant 200 response whose `status`
field is the string `healthy` and which carries a message string; the
embedded handler reads neither the request nor the client state, so the
response is independent of both. -/
theorem C8_health_always_healthy :
    health_check.status = 200 ∧
    health_check.body =
      [("status", "healthy"), ("message", "ROI Calculator Backend is running")] :=
  ⟨rfl, rfl⟩

/-- C9: if any of the four required environment variables is unset or empty
at startup, the startup check raises the configuration error, whose message
lists (by way of `missing_envs`) every missing variable. -/
theorem C9_missing_env_startup_failure (getenv : String → Option String)
    (h : ∃ e ∈ REQUIRED_ENVS, getenv e = none ∨ getenv e = some "") :
    startupCheck getenv =
      .error ("Missing required environment variables: " ++
        String.intercalate ", " (missing_envs getenv)) ∧
    missing_envs getenv ≠ [] ∧
    (∀ e ∈ REQUIRED_ENVS, (getenv e = none ∨ getenv e = some "") →
      e ∈ missing_envs getenv) := by
  have hmem : ∀ e ∈ REQUIRED_ENVS, (getenv e = none ∨ getenv e = some "") →
      e ∈ missing_envs getenv := by
    intro e he hev
    rw [missing_envs, List.mem_filter]
    refine ⟨he, ?_⟩
    rcases hev with hev | hev <;> simp [envTruthy, hev]
  have hne : missing_envs getenv ≠ [] := by
    obtain ⟨e, he, hev⟩ := h
    exact List.ne_nil_of_mem (hmem e he hev)
  refine ⟨?_, hne, hmem⟩
  rw [startupCheck, if_neg (by simpa [List.isEmpty_iff] using hne)]

/-- Witness for C9 with every environment variable unset. -/
theorem C9_witness :
    (∃ e ∈ REQUIRED_ENVS, (fun _ : String => (none : Option String)) e = none ∨
      (fun _ : String => (none : Option String)) e = some "") ∧
    startupCheck (fun _ => none) =
      .error ("Missing required environment variables: " ++
        String.intercalate ", " (missing_envs (fun _ => none))) := by
  have h : ∃ e ∈ REQUIRED_ENVS, (fun _ : String => (none : Option String)) e = none ∨
      (fun _ : String => (none : Option String)) e = some "" :=
    ⟨"AZURE_OPENAI_API_KEY", by decide, Or.inl rfl⟩
  exact ⟨h, (C9_missing_env_startup_failure (fun _ => none) h).1⟩

lemma strInvEntry_keys :
    ∀ e ∈ [strInvEntry], ∀ k ∈ required_keys, (dictGet e k).isSome = true := by
  intro e he k hk
  fin_cases he
  simp only [required_keys] at hk
  fin_cases hk <;> rfl

/-- C10 (amended): for a non-empty sequence whose entries all carry the nine
required keys but where some entry holds a string in one of the eight
currency fields, validation passes (no 400), the failure surfaces during
rendering, and the endpoint answers 500 with the generic internal-error
message and makes no provider call.  A string in the `year` field alone does
not fail, since `year` is interpolated without numeric formatting. -/
theorem C10_nonnumeric_currency_500 (data : List Entry) (dep : String)
    (provider : ProviderCall → Except String ProviderResponse)
    (hkeys : ∀ e ∈ data, ∀ k ∈ required_keys, (dictGet e k).isSome = true)
    (hbad : ∃ e ∈ data, ∃ k ∈ currencyKeys, ∃ t, dictGet e k = some (.str t)) :
    validateEntries data = none ∧
    ∃ m, generate_ai_observations true (some data) dep provider =
      (⟨500, [("error", "Internal Server Error: " ++ m)]⟩, []) := by
  have hval : validateEntries data = none := validateEntries_eq_none data hkeys
  obtain ⟨m, hm⟩ := renderLines_error_of_bad data hbad
  have hne : data ≠ [] := by
    obtain ⟨e, he, _⟩ := hbad
    exact List.ne_nil_of_mem he
  obtain ⟨a, l, rfl⟩ : ∃ a l, data = a :: l := by
    cases data with
    | nil => exact absurd rfl hne
    | cons a l => exact ⟨a, l, rfl⟩
  exact ⟨hval, m, by simp [generate_ai_observations, hval, renderSummary, hm, Except.map]⟩

/-- Witness for C10 at an entry whose `investment` field holds a string. -/
theorem C10_witness :
    (∀ e ∈ [strInvEntry], ∀ k ∈ required_keys, (dictGet e k).isSome = true) ∧
    (∃ e ∈ [strInvEntry], ∃ k ∈ currencyKeys, ∃ t, dictGet e k = some (.str t)) ∧
    (validateEntries [strInvEntry] = none ∧
      ∃ m, generate_ai_observations true (some [strInvEntry]) "dep" (fun _ => .error "unused") =
        (⟨500, [("error", "Internal Server Error: " ++ m)]⟩, [])) := by
  have hb : ∃ e ∈ [strInvEntry], ∃ k ∈ currencyKeys, ∃ t, dictGet e k = some (.str t) :=
    ⟨strInvEntry, by simp, "investment", by decide, "1000", by decide⟩
  exact ⟨strInvEntry_keys, hb,
    C10_nonnumeric_currency_500 [strInvEntry] "dep" _ strInvEntry_keys hb⟩

/-- C10 counterexample: an entry with all nine keys present whose `year`
field holds a string -- a required field with a non-numeric value -- renders
without error because `year` is interpolated without the currency format, so
the request is answered 200 with an observation, not 500. -/
theorem C10_counterexample :
    (generate_ai_observations true (some [strYearEntry]) "dep"
        (fun _ => .ok ⟨["fine"]⟩)).1 = ⟨200, [("observation", "fine")]⟩ := by
  rfl
